import Mathlib

/-!
Verification of the WeaR-studio streaming pipeline core against its
natural-language specification.  The C++ classes under src/core are
shallowly embedded: numeric Qt types (qreal/double coordinates) become
rationals, machine integers become Nat/Int, Qt signals become explicit
event lists returned next to the successor state, and each mutating
method becomes a pure state-transition function transcribed from the
method body.
-/

namespace WeaR

/-! ## SceneItem (src/core/SceneItem.h / SceneItem.cpp)

ItemTransform mirrors the C++ struct field by field; QPointF/QSizeF pairs
are flattened into rational components. -/

structure ItemTransform where
  posX : ℚ
  posY : ℚ
  width : ℚ
  height : ℚ
  rotation : ℚ
  scaleX : ℚ
  scaleY : ℚ
  anchorX : ℚ
  anchorY : ℚ
  opacity : ℚ
  flipH : Bool
  flipV : Bool
deriving Repr, DecidableEq

/-- Default member initializers of ItemTransform: position (0,0),
size (0,0), rotation 0, scale (1,1), anchor (0.5,0.5), opacity 1,
no flips. -/
def ItemTransform.default : ItemTransform :=
  { posX := 0, posY := 0, width := 0, height := 0, rotation := 0,
    scaleX := 1, scaleY := 1, anchorX := mkRat 1 2, anchorY := mkRat 1 2,
    opacity := 1, flipH := false, flipV := false }

/-- Qt qBound(lo, v, hi) = qMax(lo, qMin(hi, v)). -/
def qBound (lo v hi : ℚ) : ℚ := max lo (min hi v)

/-- Mutable per-item state of SceneItem that the transform setters touch:
the transform plus the visible/locked flags (m_transform, m_visible,
m_locked). -/
structure SceneItemState where
  transform : ItemTransform
  visible : Bool
  locked : Bool
deriving Repr, DecidableEq

/-- Qt signals a SceneItem setter can emit. -/
inductive ItemSignal
  | transformChanged
  | visibilityChanged (v : Bool)
  | lockedChanged (v : Bool)
deriving Repr, DecidableEq

/-- SceneItem::setTransform: unconditionally assigns m_transform and emits
transformChanged.  No check of m_locked appears in the body. -/
def setTransform (t : ItemTransform) (s : SceneItemState) :
    SceneItemState × List ItemSignal :=
  ({ s with transform := t }, [ItemSignal.transformChanged])

/-- SceneItem::setPosition: assigns and emits only when the position
actually changes.  No check of m_locked appears in the body. -/
def setPosition (x y : ℚ) (s : SceneItemState) :
    SceneItemState × List ItemSignal :=
  if s.transform.posX = x ∧ s.transform.posY = y then (s, [])
  else ({ s with transform := { s.transform with posX := x, posY := y } },
        [ItemSignal.transformChanged])

/-- SceneItem::setSize, same shape as setPosition. -/
def setSize (w h : ℚ) (s : SceneItemState) :
    SceneItemState × List ItemSignal :=
  if s.transform.width = w ∧ s.transform.height = h then (s, [])
  else ({ s with transform := { s.transform with width := w, height := h } },
        [ItemSignal.transformChanged])

/-- SceneItem::setRotation, same shape as setPosition. -/
def setRotation (degrees : ℚ) (s : SceneItemState) :
    SceneItemState × List ItemSignal :=
  if s.transform.rotation = degrees then (s, [])
  else ({ s with transform := { s.transform with rotation := degrees } },
        [ItemSignal.transformChanged])

/-- SceneItem::setOpacity: first clamps the argument with
qBound(0.0, opacity, 1.0), then assigns and emits only on change. -/
def setOpacity (o : ℚ) (s : SceneItemState) :
    SceneItemState × List ItemSignal :=
  if s.transform.opacity = qBound 0 o 1 then (s, [])
  else ({ s with transform := { s.transform with opacity := qBound 0 o 1 } },
        [ItemSignal.transformChanged])

/-- SceneItem::setVisible. -/
def setVisible (v : Bool) (s : SceneItemState) :
    SceneItemState × List ItemSignal :=
  if s.visible = v then (s, [])
  else ({ s with visible := v }, [ItemSignal.visibilityChanged v])

/-- SceneItem::setLocked. -/
def setLocked (v : Bool) (s : SceneItemState) :
    SceneItemState × List ItemSignal :=
  if s.locked = v then (s, [])
  else ({ s with locked := v }, [ItemSignal.lockedChanged v])

/-- One public mutation of a SceneItem. -/
inductive ItemOp
  | opTransform (t : ItemTransform)
  | opPosition (x y : ℚ)
  | opSize (w h : ℚ)
  | opRotation (d : ℚ)
  | opOpacity (o : ℚ)
  | opVisible (v : Bool)
  | opLocked (v : Bool)
deriving Repr, DecidableEq

def applyOp (s : SceneItemState) : ItemOp → SceneItemState × List ItemSignal
  | ItemOp.opTransform t => setTransform t s
  | ItemOp.opPosition x y => setPosition x y s
  | ItemOp.opSize w h => setSize w h s
  | ItemOp.opRotation d => setRotation d s
  | ItemOp.opOpacity o => setOpacity o s
  | ItemOp.opVisible v => setVisible v s
  | ItemOp.opLocked v => setLocked v s

def applyOps (s : SceneItemState) : List ItemOp → SceneItemState
  | [] => s
  | op :: rest => applyOps (applyOp s op).1 rest

/-- Whether an operation list avoids setTransform. -/
def noSetTransform : List ItemOp → Bool
  | [] => true
  | ItemOp.opTransform _ :: _ => false
  | _ :: rest => noSetTransform rest

/-- A locked SceneItem in its default transform. -/
def lockedItem : SceneItemState :=
  { transform := ItemTransform.default, visible := true, locked := true }

/-! ## EncoderManager (src/core/EncoderManager.cpp)

The encoder Impl state restricted to the fields the frame-queue logic
touches.  Queued frames are represented by their assigned PTS values. -/

structure EncState where
  running : Bool
  codecCtx : Bool
  packetAlloc : Bool
  swsCtx : Bool
  queue : List Int
  maxQueueSize : Nat
  frameCounter : Nat
  fpsNum : Nat
  framesDropped : Nat
deriving Repr, DecidableEq

/-- PTS assigned when the caller passes a negative (auto) pts:
m_frameCounter * (AV_TIME_BASE / m_settings.fpsNum) with AV_TIME_BASE =
1000000 and C++ integer division. -/
def autoPts (frameCounter fps : Nat) : Nat :=
  frameCounter * (1000000 / fps)

/-- EncoderManager::Impl::pushFrame.  Returns early (untouched state)
when not running or not initialized; when the queue already holds
maxQueueSize frames the incoming frame is dropped and framesDropped is
incremented; otherwise the frame gets its (auto or explicit) PTS,
m_frameCounter advances, and the frame is appended FIFO. -/
def pushFrame (pts : Int) (s : EncState) : EncState :=
  if s.running = false ∨ s.codecCtx = false then s
  else if s.maxQueueSize ≤ s.queue.length then
    { s with framesDropped := s.framesDropped + 1 }
  else
    let p : Int := if pts < 0 then (autoPts s.frameCounter s.fpsNum : Int) else pts
    { s with queue := s.queue ++ [p], frameCounter := s.frameCounter + 1 }

/-- k successive pushFrame calls with auto pts and no intervening
consumption by the encoding thread. -/
def pushAuto : Nat → EncState → EncState
  | 0, s => s
  | Nat.succ k, s => pushAuto k (pushFrame (-1) s)

/-- Encoder Impl state as constructed (member initializers):
m_running{false}, null FFmpeg pointers, empty queue, m_maxQueueSize = 30,
m_frameCounter = 0. -/
def EncState.initial (fps : Nat) : EncState :=
  { running := false, codecCtx := false, packetAlloc := false,
    swsCtx := false, queue := [], maxQueueSize := 30, frameCounter := 0,
    fpsNum := fps, framesDropped := 0 }

/-- Events the encoder emits. -/
inductive EncEvent
  | encoderReady
  | encoderStopped
deriving Repr, DecidableEq

/-- EncoderManager::Impl::stop: early return when m_running is already
false; otherwise clear running, join the worker, flush the codec,
release FFmpeg resources and clear the frame queue (cleanup), and emit
encoderStopped. -/
def encStop (s : EncState) : EncState × List EncEvent :=
  if s.running = false then (s, [])
  else
    ({ s with running := false, codecCtx := false, packetAlloc := false,
              swsCtx := false, queue := [] },
     [EncEvent.encoderStopped])

/-! ## Scene rendering (src/core/Scene.cpp, Scene::render(QPainter*))

What matters for the locking claim is the order of lock operations,
source fetches (ISource::captureVideoFrame inside
SceneItem::currentFrame) and blits, so Scene::render is embedded as the
event trace it produces.  A layer is abstracted to the three booleans
the control flow inspects. -/

structure LayerModel where
  visible : Bool
  hasSource : Bool
  frameAvail : Bool
deriving Repr, DecidableEq

inductive RenderEv
  | lockAcquire
  | lockRelease
  | sourceFetch (i : Nat)
  | blit (i : Nat)
deriving Repr, DecidableEq

/-- Events of SceneItem::render for the layer at index i:
nothing when invisible; otherwise currentFrame fetches from the source
when one is attached (captureVideoFrame), and the item is drawn unless
the fetched frame is null. -/
def itemRenderEvents (i : Nat) (it : LayerModel) : List RenderEv :=
  if it.visible then
    if it.hasSource then
      RenderEv.sourceFetch i ::
        (if it.frameAvail then [RenderEv.blit i] else [])
    else []
  else []

/-- The body of the render loop over m_items (visible items in order). -/
def renderBody : Nat → List LayerModel → List RenderEv
  | _, [] => []
  | i, it :: rest => itemRenderEvents i it ++ renderBody (i + 1) rest

/-- Scene::render(QPainter*): QMutexLocker acquires m_mutex on entry,
the whole item loop runs, and the mutex is released when the locker is
destroyed at function exit. -/
def sceneRenderTrace (items : List LayerModel) : List RenderEv :=
  RenderEv.lockAcquire :: (renderBody 0 items ++ [RenderEv.lockRelease])

/-- Number of sourceFetch events that occur while the scene mutex is
held, scanning the trace with the current lock depth. -/
def fetchesUnderLock : Nat → List RenderEv → Nat
  | _, [] => 0
  | d, RenderEv.lockAcquire :: rest => fetchesUnderLock (d + 1) rest
  | d, RenderEv.lockRelease :: rest => fetchesUnderLock (d - 1) rest
  | d, RenderEv.sourceFetch _ :: rest =>
      (if 0 < d then 1 else 0) + fetchesUnderLock d rest
  | d, RenderEv.blit _ :: rest => fetchesUnderLock d rest

/-! ## StreamManager (src/core/StreamManager.cpp) -/

inductive StreamState
  | stopped
  | connecting
  | streaming
  | reconnecting
  | error
deriving Repr, DecidableEq

inductive TxEvent
  | stateChanged (s : StreamState)
  | connectedEv
  | disconnectedEv
  | streamErrorEv
  | reconnectingEv (attempt : Nat)
  | sleepEv (seconds : Nat)
deriving Repr, DecidableEq

/-- Impl::setState emits stateChanged only when the state really
changes. -/
def setStateEvents (old new : StreamState) : List TxEvent :=
  if old = new then [] else [TxEvent.stateChanged new]

/-- Transmitter Impl state restricted to the fields the stop/cleanup
path touches.  Queued packets are represented by identifiers. -/
structure TxState where
  streamState : StreamState
  running : Bool
  headerWritten : Bool
  formatCtx : Bool
  ioOpen : Bool
  packetQueue : List Nat
deriving Repr, DecidableEq

/-- Impl::cleanup, transcribed in source order: m_headerWritten is reset
to false FIRST; only then, if a format context exists, is
av_write_trailer guarded by the (now already cleared) m_headerWritten
flag, the IO context closed, the format context freed; finally the
packet queue is cleared.  The returned Bool records whether
av_write_trailer was actually called. -/
def txCleanup (s : TxState) : TxState × Bool :=
  let s1 := { s with headerWritten := false }
  if s1.formatCtx then
    ({ s1 with ioOpen := false, formatCtx := false, packetQueue := [] },
     s1.headerWritten)
  else
    ({ s1 with packetQueue := [] }, false)

/-- Observations of one stopStream call: whether the FLV trailer was
written, the packets transmitted during the stop, and the emitted
signals. -/
structure StopObs where
  trailerWritten : Bool
  sentDuringStop : List Nat
  events : List TxEvent
deriving Repr, DecidableEq

/-- Impl::stop: early return while already Stopped; otherwise clear
m_running, wake and join the output worker (whose loop exits at the next
m_running check without sending the packets still queued), run cleanup,
transition to Stopped and emit disconnected. -/
def txStop (s : TxState) : TxState × StopObs :=
  if s.streamState = StreamState.stopped then
    (s, { trailerWritten := false, sentDuringStop := [], events := [] })
  else
    let s1 := { s with running := false }
    let c := txCleanup s1
    ({ c.1 with streamState := StreamState.stopped },
     { trailerWritten := c.2, sentDuringStop := [],
       events := setStateEvents c.1.streamState StreamState.stopped ++
         [TxEvent.disconnectedEv] })

/-- AVCodecParameters fields relevant to the stream header. -/
structure CodecPar where
  codecId : Nat
  parWidth : Nat
  parHeight : Nat
  bitRate : Nat
  extradataSize : Nat
deriving Repr, DecidableEq

/-- FFmpeg AV_CODEC_ID_H264. -/
def AV_CODEC_ID_H264 : Nat := 27

/-- Outcome of Impl::initializeOutput: whether it returned true, whether
avformat_write_header ran, and the codec parameters installed on the
video stream. -/
structure InitOutcome where
  ok : Bool
  headerWritten : Bool
  streamPar : CodecPar
deriving Repr, DecidableEq

/-- Impl::initializeOutput.  After allocating the flv output context and
the video stream, the stream codec parameters are copied from m_codecpar
when set; OTHERWISE default H.264 parameters are installed from the
settings (codec_id = H264, width/height, bitrate*1000) with no
extradata.  Then the connection is opened and the header written; either
failing makes the function return false.  connectOk / writeOk abstract
the results of avio_open2 and avformat_write_header. -/
def initOutput (codecpar : Option CodecPar) (w h kbps : Nat)
    (connectOk writeOk : Bool) : InitOutcome :=
  let par : CodecPar :=
    match codecpar with
    | some p => p
    | none =>
      { codecId := AV_CODEC_ID_H264, parWidth := w, parHeight := h,
        bitRate := kbps * 1000, extradataSize := 0 }
  if connectOk then
    if writeOk then
      { ok := true, headerWritten := true, streamPar := par }
    else
      { ok := false, headerWritten := false, streamPar := par }
  else
    { ok := false, headerWritten := false, streamPar := par }

/-- State of the connection-retry logic in Impl::outputLoop: the atomic
stream state plus the local reconnectAttempts counter. -/
structure ConnState where
  streamState : StreamState
  attempts : Nat
deriving Repr, DecidableEq

/-- One pass of the connect branch of Impl::outputLoop, given whether
initializeOutput succeeds.  On success: Streaming, connected signal,
counter reset.  On failure: the counter is incremented; if
maxReconnectAttempts > 0 and the counter has reached it, the state
becomes Error, streamError is emitted and the loop breaks (the final
Bool is false); otherwise the state becomes Reconnecting, reconnecting
is emitted, the worker sleeps reconnectDelay seconds and retries. -/
def connectStep (maxAttempts delay : Nat) (s : ConnState) (success : Bool) :
    ConnState × List TxEvent × Bool :=
  if success then
    ({ streamState := StreamState.streaming, attempts := 0 },
     setStateEvents s.streamState StreamState.streaming ++
       [TxEvent.connectedEv],
     true)
  else
    let a := s.attempts + 1
    if 0 < maxAttempts ∧ maxAttempts ≤ a then
      ({ streamState := StreamState.error, attempts := a },
       setStateEvents s.streamState StreamState.error ++
         [TxEvent.streamErrorEv],
       false)
    else
      ({ streamState := StreamState.reconnecting, attempts := a },
       setStateEvents s.streamState StreamState.reconnecting ++
         [TxEvent.reconnectingEv a, TxEvent.sleepEv delay],
       true)

/-- The connect branch iterated over a list of attempt outcomes,
stopping when the loop breaks into the terminal Error state. -/
def connectRun (maxAttempts delay : Nat) :
    ConnState → List Bool → ConnState × List TxEvent
  | s, [] => (s, [])
  | s, o :: rest =>
    let r := connectStep maxAttempts delay s o
    if r.2.2 then
      let t := connectRun maxAttempts delay r.1 rest
      (t.1, r.2.1 ++ t.2)
    else
      (r.1, r.2.1)

/-! ## Render loop timestamps (src/core/SceneManager.cpp)

SceneManager::outputToEncoder stamps each frame with
m_frameTimer.elapsed() * 1000 — the monotonic QElapsedTimer millisecond
reading converted to microseconds — and pushes it to the encoder. -/

/-- PTS computed by outputToEncoder from one clock sample. -/
def outputPts (elapsedMs : Nat) : Nat := elapsedMs * 1000

/-- Timestamps delivered to the encoder across a run of ticks whose
clock readings (in ms) are given. -/
def encoderPtsTrace (clockMs : List Nat) : List Nat :=
  clockMs.map outputPts

/-- Strict increase of consecutive entries. -/
def strictMono : List Nat → Bool
  | [] => true
  | [_] => true
  | a :: b :: rest => decide (a < b) && strictMono (b :: rest)

/-- Non-decrease of consecutive entries. -/
def nonDecreasing : List Nat → Bool
  | [] => true
  | [_] => true
  | a :: b :: rest => decide (a ≤ b) && nonDecreasing (b :: rest)

/-! ## Render loop stop (src/core/SceneManager.cpp) -/

structure RenderLoopState where
  renderLoopRunning : Bool
  timerActive : Bool
deriving Repr, DecidableEq

inductive RenderLoopEvent
  | renderLoopStarted
  | renderLoopStopped
deriving Repr, DecidableEq

/-- SceneManager::stopRenderLoop: early return when the loop is not
running; otherwise stop the timer, clear the flag and emit
renderLoopStopped. -/
def stopRenderLoop (s : RenderLoopState) :
    RenderLoopState × List RenderLoopEvent :=
  if s.renderLoopRunning = false then (s, [])
  else
    ({ renderLoopRunning := false, timerActive := false },
     [RenderLoopEvent.renderLoopStopped])

/-- A freshly constructed unlocked SceneItem. -/
def defaultItem : SceneItemState :=
  { transform := ItemTransform.default, visible := true, locked := false }

/-- A transmitter mid-stream: header written, packets queued. -/
def streamingTxState : TxState :=
  { streamState := StreamState.streaming, running := true,
    headerWritten := true, formatCtx := true, ioOpen := true,
    packetQueue := [1, 2, 3] }

/-- A running encoder whose queue is full (capacity 1). -/
def fullEncState : EncState :=
  { running := true, codecCtx := true, packetAlloc := true, swsCtx := true,
    queue := [0], maxQueueSize := 1, frameCounter := 1, fpsNum := 60,
    framesDropped := 0 }

/-- A running encoder with the default capacity and an empty queue. -/
def emptyEncState : EncState :=
  { running := true, codecCtx := true, packetAlloc := true, swsCtx := true,
    queue := [], maxQueueSize := 30, frameCounter := 0, fpsNum := 60,
    framesDropped := 0 }

/-- A running encoder about to stamp auto frame number 25000 at 60 fps. -/
def ptsEncState : EncState :=
  { running := true, codecCtx := true, packetAlloc := true, swsCtx := true,
    queue := [], maxQueueSize := 30, frameCounter := 25000, fpsNum := 60,
    framesDropped := 0 }

/-! ## Helper lemmas -/

lemma qBound_nonneg (x : ℚ) : 0 ≤ qBound 0 x 1 := le_max_left _ _

lemma qBound_le_one (x : ℚ) : qBound 0 x 1 ≤ 1 :=
  max_le (by norm_num) (min_le_left _ _)

lemma setOpacity_opacity (x : ℚ) (s : SceneItemState) :
    (setOpacity x s).1.transform.opacity = qBound 0 x 1 := by
  simp only [setOpacity]
  split
  · next h => exact h
  · rfl

lemma applyOp_opacity (s : SceneItemState) (op : ItemOp)
    (h : ∀ t, op ≠ ItemOp.opTransform t) :
    (applyOp s op).1.transform.opacity = s.transform.opacity ∨
    ∃ x, (applyOp s op).1.transform.opacity = qBound 0 x 1 := by
  cases op with
  | opTransform t => exact absurd rfl (h t)
  | opPosition x y =>
    left
    simp only [applyOp, setPosition]
    split <;> rfl
  | opSize w h2 =>
    left
    simp only [applyOp, setSize]
    split <;> rfl
  | opRotation d =>
    left
    simp only [applyOp, setRotation]
    split <;> rfl
  | opOpacity o =>
    exact Or.inr ⟨o, setOpacity_opacity o s⟩
  | opVisible v =>
    left
    simp only [applyOp, setVisible]
    split <;> rfl
  | opLocked v =>
    left
    simp only [applyOp, setLocked]
    split <;> rfl

lemma applyOps_opacity_bounds :
    ∀ (ops : List ItemOp) (s : SceneItemState),
      noSetTransform ops = true →
      0 ≤ s.transform.opacity → s.transform.opacity ≤ 1 →
      0 ≤ (applyOps s ops).transform.opacity ∧
        (applyOps s ops).transform.opacity ≤ 1 := by
  intro ops
  induction ops with
  | nil => intro s _ h0 h1; exact ⟨h0, h1⟩
  | cons op rest ih =>
    intro s hno h0 h1
    have hop : ∀ t, op ≠ ItemOp.opTransform t := by
      intro t ht
      subst ht
      simp [noSetTransform] at hno
    have hrest : noSetTransform rest = true := by
      cases op <;> simp_all [noSetTransform]
    have hnext := applyOp_opacity s op hop
    rcases hnext with heq | ⟨x, hx⟩
    · exact ih (applyOp s op).1 hrest (heq ▸ h0) (heq ▸ h1)
    · exact ih (applyOp s op).1 hrest (hx ▸ qBound_nonneg x)
        (hx ▸ qBound_le_one x)

lemma fetchesUnderLock_item (i : Nat) (it : LayerModel) (d : Nat)
    (hd : 0 < d) (l : List RenderEv) :
    fetchesUnderLock d (itemRenderEvents i it ++ l) =
      (if it.visible && it.hasSource then 1 else 0) + fetchesUnderLock d l := by
  rcases it with ⟨v, hs, fa⟩
  cases v <;> cases hs <;> cases fa <;>
    simp [itemRenderEvents, fetchesUnderLock, hd]

lemma fetchesUnderLock_body (d : Nat) (hd : 0 < d) :
    ∀ (items : List LayerModel) (i : Nat) (l : List RenderEv),
      fetchesUnderLock d (renderBody i items ++ l) =
        items.countP (fun it => it.visible && it.hasSource) +
          fetchesUnderLock d l := by
  intro items
  induction items with
  | nil => intro i l; simp [renderBody]
  | cons it rest ih =>
    intro i l
    have h1 := fetchesUnderLock_item i it d hd (renderBody (i + 1) rest ++ l)
    have h2 := ih (i + 1) l
    simp only [renderBody, List.append_assoc, h1, h2, List.countP_cons]
    cases hb : it.visible && it.hasSource <;> (simp; try omega)

lemma pushFrame_fields (pts : Int) (s : EncState) :
    (pushFrame pts s).running = s.running ∧
    (pushFrame pts s).codecCtx = s.codecCtx ∧
    (pushFrame pts s).maxQueueSize = s.maxQueueSize := by
  unfold pushFrame
  split
  · exact ⟨rfl, rfl, rfl⟩
  · split
    · exact ⟨rfl, rfl, rfl⟩
    · exact ⟨rfl, rfl, rfl⟩

lemma pushAuto_spec :
    ∀ (k : Nat) (s : EncState), s.running = true → s.codecCtx = true →
      s.queue.length ≤ s.maxQueueSize →
      (pushAuto k s).queue.length =
        min (s.queue.length + k) s.maxQueueSize ∧
      (pushAuto k s).framesDropped =
        s.framesDropped + (s.queue.length + k - s.maxQueueSize) := by
  intro k
  induction k with
  | zero =>
    intro s _ _ hlen
    constructor
    · simp [pushAuto]; omega
    · simp [pushAuto]; omega
  | succ k ih =>
    intro s hrun hctx hlen
    have hguard : ¬ (s.running = false ∨ s.codecCtx = false) := by
      simp [hrun, hctx]
    by_cases hfull : s.maxQueueSize ≤ s.queue.length
    · have heq : s.queue.length = s.maxQueueSize := le_antisymm hlen hfull
      have hstep : pushFrame (-1) s = { s with framesDropped := s.framesDropped + 1 } := by
        unfold pushFrame
        rw [if_neg hguard, if_pos hfull]
      have := ih ({ s with framesDropped := s.framesDropped + 1 }) hrun hctx (by simpa using hlen)
      simp only [pushAuto, hstep]
      refine ⟨?_, ?_⟩
      · rw [this.1]; simp; omega
      · rw [this.2]; simp; omega
    · have hstep : pushFrame (-1) s =
          { s with
              queue := s.queue ++ [(autoPts s.frameCounter s.fpsNum : Int)],
              frameCounter := s.frameCounter + 1 } := by
        unfold pushFrame
        rw [if_neg hguard, if_neg hfull]
        norm_num
      have hlen2 : (s.queue ++ [(autoPts s.frameCounter s.fpsNum : Int)]).length ≤ s.maxQueueSize := by
        simp; omega
      have := ih ({ s with
          queue := s.queue ++ [(autoPts s.frameCounter s.fpsNum : Int)],
          frameCounter := s.frameCounter + 1 }) hrun hctx hlen2
      simp only [pushAuto, hstep]
      refine ⟨?_, ?_⟩
      · rw [this.1]; simp; omega
      · rw [this.2]; simp; omega

lemma connectRun_cons (m d : Nat) (s : ConnState) (o : Bool)
    (rest : List Bool) :
    connectRun m d s (o :: rest) =
      (if (connectStep m d s o).2.2 = true then
        ((connectRun m d (connectStep m d s o).1 rest).1,
         (connectStep m d s o).2.1 ++
           (connectRun m d (connectStep m d s o).1 rest).2)
      else ((connectStep m d s o).1, (connectStep m d s o).2.1)) := rfl

lemma connectRun_failures (maxAttempts delay : Nat) :
    ∀ (k a : Nat) (st : StreamState), st ≠ StreamState.error →
      ((connectRun maxAttempts delay { streamState := st, attempts := a }
          (List.replicate k false)).1.streamState = StreamState.error ↔
        (0 < maxAttempts ∧ 1 ≤ k ∧ maxAttempts ≤ a + k)) := by
  intro k
  induction k with
  | zero =>
    intro a st hst
    simp [connectRun, hst]
  | succ k ih =>
    intro a st hst
    rw [List.replicate_succ]
    by_cases hmax : 0 < maxAttempts ∧ maxAttempts ≤ a + 1
    · have hstep : connectStep maxAttempts delay { streamState := st, attempts := a } false =
          ({ streamState := StreamState.error, attempts := a + 1 },
           setStateEvents st StreamState.error ++ [TxEvent.streamErrorEv],
           false) := by
        unfold connectStep
        rw [if_neg (by simp), if_pos hmax]
      rw [connectRun_cons, hstep]
      simp
      omega
    · have hstep : connectStep maxAttempts delay { streamState := st, attempts := a } false =
          ({ streamState := StreamState.reconnecting, attempts := a + 1 },
           setStateEvents st StreamState.reconnecting ++
             [TxEvent.reconnectingEv (a + 1), TxEvent.sleepEv delay],
           true) := by
        unfold connectStep
        rw [if_neg (by simp), if_neg hmax]
      rw [connectRun_cons, hstep]
      have hih := ih (a + 1) StreamState.reconnecting (by simp)
      simp [hih]
      omega

/-! ## Claim theorems -/

/-- Claim C1.  The spec demands that a locked layer rejects every
transform mutation, and SceneItem.h documents locked as "cannot be
moved/edited" — but none of the five transform setters consults
m_locked: on a locked item each mutator updates the transform and emits
transformChanged exactly as on an unlocked one.  Evaluated at the
failing input (a locked default item). -/
theorem C1_locked_item_accepts_mutation :
    lockedItem.locked = true ∧
    (setPosition 10 20 lockedItem).1.transform.posX = 10 ∧
    (setPosition 10 20 lockedItem).2 = [ItemSignal.transformChanged] ∧
    (setSize 640 360 lockedItem).1.transform.width = 640 ∧
    (setRotation 45 lockedItem).1.transform.rotation = 45 ∧
    (setOpacity 0 lockedItem).1.transform.opacity = 0 ∧
    (setTransform { ItemTransform.default with posX := 7 }
        lockedItem).1.transform.posX = 7 := by
  decide

/-- Claim C2.  The spec's stop contract (drain the queue, write the FLV
trailer, close IO, free the context) matches the code's own
documentation of stopStream, but Impl::cleanup resets m_headerWritten to
false before testing it, so av_write_trailer is dead code, and the
output worker exits without sending the queued packets, which cleanup
then discards.  The universal conjunct shows no stop call ever writes
the trailer; the concrete one evaluates the stop path at a mid-stream
state with a written header and three queued packets. -/
theorem C2_stop_never_writes_trailer :
    (∀ s : TxState, (txStop s).2.trailerWritten = false) ∧
    streamingTxState.headerWritten = true ∧
    (txStop streamingTxState).2.trailerWritten = false ∧
    (txStop streamingTxState).2.sentDuringStop = [] ∧
    (txStop streamingTxState).1.packetQueue = [] ∧
    (txStop streamingTxState).1.streamState = StreamState.stopped := by
  refine ⟨?_, by decide, by decide, by decide, by decide, by decide⟩
  intro s
  rcases s with ⟨st, r, hw, fc, io, q⟩
  cases st <;> cases fc <;> rfl

/-- Claim C3.  pushFrame with a full queue drops the incoming frame,
increments framesDropped and leaves everything else (queue contents
included) unchanged; the default capacity is 30; and pushing k ≥ N
frames with no consumption leaves exactly N queued and raises the drop
counter by k − N. -/
theorem C3_queue_full_drop_policy :
    (∀ (pts : Int) (s : EncState), s.running = true → s.codecCtx = true →
       s.maxQueueSize ≤ s.queue.length →
       pushFrame pts s = { s with framesDropped := s.framesDropped + 1 }) ∧
    (∀ fps, (EncState.initial fps).maxQueueSize = 30) ∧
    (∀ (k : Nat) (s : EncState), s.running = true → s.codecCtx = true →
       s.queue = [] → s.maxQueueSize ≤ k →
       (pushAuto k s).queue.length = s.maxQueueSize ∧
       (pushAuto k s).framesDropped =
         s.framesDropped + (k - s.maxQueueSize)) := by
  refine ⟨?_, fun _ => rfl, ?_⟩
  · intro pts s h1 h2 h3
    unfold pushFrame
    rw [if_neg (by simp [h1, h2]), if_pos h3]
  · intro k s h1 h2 hq hk
    have hlen0 : s.queue.length = 0 := by rw [hq]; rfl
    have h := pushAuto_spec k s h1 h2 (by omega)
    refine ⟨?_, ?_⟩
    · rw [h.1]; omega
    · rw [h.2]; omega

/-- Witness for C3 at concrete inputs: a drop on a full capacity-1
queue, and 31 pushes against the default capacity 30. -/
theorem C3_queue_full_drop_policy_witness :
    pushFrame 7 fullEncState =
      { fullEncState with framesDropped := fullEncState.framesDropped + 1 } ∧
    (pushAuto 31 emptyEncState).queue.length = emptyEncState.maxQueueSize ∧
    (pushAuto 31 emptyEncState).framesDropped =
      emptyEncState.framesDropped + (31 - emptyEncState.maxQueueSize) :=
  ⟨C3_queue_full_drop_policy.1 7 fullEncState rfl rfl (by decide),
   (C3_queue_full_drop_policy.2.2 31 emptyEncState rfl rfl rfl (by decide)).1,
   (C3_queue_full_drop_policy.2.2 31 emptyEncState rfl rfl rfl (by decide)).2⟩

/-- Counterexample to claim C4.  outputToEncoder stamps frames with
elapsed-milliseconds × 1000 and nothing else: two ticks that read the
same millisecond get equal timestamps (not strictly increasing), and on
a regressed clock the code emits the regressed value, not the previous
timestamp plus 1 µs. -/
theorem C4_strict_monotonicity_fails :
    strictMono (encoderPtsTrace [5, 5]) = false ∧
    encoderPtsTrace [5, 3] = [5000, 3000] ∧
    encoderPtsTrace [5, 3] ≠ [5000, 5001] := by
  decide

/-- Claim C4 amended: the render-loop timestamps delivered to the
encoder are the monotonic clock readings scaled to microseconds, hence
non-decreasing whenever the clock readings are non-decreasing — but only
non-strictly, and with no regression handling. -/
theorem C4_nondecreasing_pts :
    ∀ clockMs : List Nat, nonDecreasing clockMs = true →
      nonDecreasing (encoderPtsTrace clockMs) = true := by
  intro clock
  induction clock with
  | nil => intro _; rfl
  | cons a rest ih =>
    cases rest with
    | nil => intro _; rfl
    | cons b rest2 =>
      intro h
      have h1 : a ≤ b ∧ nonDecreasing (b :: rest2) = true := by
        simpa [nonDecreasing, Bool.and_eq_true] using h
      have h2 := ih h1.2
      have hm : outputPts a ≤ outputPts b :=
        Nat.mul_le_mul_right 1000 h1.1
      simp only [encoderPtsTrace, List.map_cons] at h2 ⊢
      simp [nonDecreasing, Bool.and_eq_true, h2, hm]

/-- Witness for C4 at a concrete clock trace. -/
theorem C4_nondecreasing_pts_witness :
    nonDecreasing (encoderPtsTrace [1, 2, 2]) = true :=
  C4_nondecreasing_pts [1, 2, 2] (by decide)

/-- Counterexample to claim C5.  With no codec parameters supplied,
initializeOutput does not surface a configuration error: it installs
default H.264 parameters without extradata and proceeds to write the
stream header. -/
theorem C5_missing_codecpar_proceeds :
    (initOutput none 1920 1080 6000 true true).ok = true ∧
    (initOutput none 1920 1080 6000 true true).headerWritten = true ∧
    (initOutput none 1920 1080 6000 true
        true).streamPar.extradataSize = 0 := by
  decide

/-- Claim C5 amended: when startStream runs without codec parameters and
the connection succeeds, the transmitter silently writes the stream
header with default H.264 parameters taken from the settings
(codec_id = H264, configured width, height, bitrate × 1000) and no
extradata. -/
theorem C5_default_header_params :
    ∀ w h kbps : Nat, initOutput none w h kbps true true =
      { ok := true, headerWritten := true,
        streamPar := { codecId := AV_CODEC_ID_H264, parWidth := w,
                       parHeight := h, bitRate := kbps * 1000,
                       extradataSize := 0 } } := by
  intro w h kbps
  rfl

/-- Claim C6.  The connection loop of the transmitter: a failed attempt
with the (post-increment) attempt count still below maxReconnectAttempts
— or with maxReconnectAttempts = 0 — sets Reconnecting, emits the
reconnecting signal, sleeps reconnectDelay and retries; a successful
attempt enters Streaming and resets the counter to zero; and starting
from a fresh Connecting state, k consecutive failures end in the
terminal Error state exactly when maxReconnectAttempts > 0 and k has
reached it. -/
theorem C6_reconnect_policy :
    (∀ (maxA delay : Nat) (s : ConnState),
       maxA = 0 ∨ s.attempts + 1 < maxA →
       connectStep maxA delay s false =
         ({ streamState := StreamState.reconnecting,
            attempts := s.attempts + 1 },
          setStateEvents s.streamState StreamState.reconnecting ++
            [TxEvent.reconnectingEv (s.attempts + 1),
             TxEvent.sleepEv delay],
          true)) ∧
    (∀ (maxA delay : Nat) (s : ConnState),
       connectStep maxA delay s true =
         ({ streamState := StreamState.streaming, attempts := 0 },
          setStateEvents s.streamState StreamState.streaming ++
            [TxEvent.connectedEv],
          true)) ∧
    (∀ maxA delay k : Nat,
       ((connectRun maxA delay
           { streamState := StreamState.connecting, attempts := 0 }
           (List.replicate k false)).1.streamState = StreamState.error ↔
         (0 < maxA ∧ maxA ≤ k))) := by
  refine ⟨?_, ?_, ?_⟩
  · intro maxA delay s h
    have hneg : ¬ (0 < maxA ∧ maxA ≤ s.attempts + 1) := by omega
    unfold connectStep
    rw [if_neg (by simp), if_neg hneg]
  · intro maxA delay s
    rfl
  · intro maxA delay k
    have h := connectRun_failures maxA delay k 0 StreamState.connecting
      (by simp)
    rw [h]
    omega

/-- Witness for C6 with the default settings (5 attempts, 5 s delay). -/
theorem C6_reconnect_policy_witness :
    connectStep 5 5 { streamState := StreamState.connecting, attempts := 0 }
        false =
      ({ streamState := StreamState.reconnecting, attempts := 1 },
       setStateEvents StreamState.connecting StreamState.reconnecting ++
         [TxEvent.reconnectingEv 1, TxEvent.sleepEv 5],
       true) ∧
    ((connectRun 5 5 { streamState := StreamState.connecting, attempts := 0 }
        (List.replicate 5 false)).1.streamState = StreamState.error ↔
      (0 < 5 ∧ 5 ≤ 5)) :=
  ⟨C6_reconnect_policy.1 5 5 _ (Or.inr (by decide)),
   C6_reconnect_policy.2.2 5 5 5⟩

/-- Counterexample to claim C7.  Scene::render holds the scene-wide
mutex for the whole item loop, so with a single visible sourced layer
one captureVideoFrame call happens while the lock is held: the claimed
snapshot-then-fetch-lock-free discipline does not exist. -/
theorem C7_lock_held_across_fetch :
    fetchesUnderLock 0 (sceneRenderTrace
      [{ visible := true, hasSource := true, frameAvail := true }]) ≠ 0 := by
  decide

/-- Claim C7 amended: every source fetch performed by Scene::render —
one per visible layer with a source — occurs while the scene mutex is
held; no snapshot is taken and no fetch is lock-free. -/
theorem C7_all_fetches_under_lock :
    ∀ items : List LayerModel,
      fetchesUnderLock 0 (sceneRenderTrace items) =
        items.countP (fun it => it.visible && it.hasSource) := by
  intro items
  have h := fetchesUnderLock_body 1 Nat.one_pos items 0
    [RenderEv.lockRelease]
  simp [fetchesUnderLock] at h
  simpa [sceneRenderTrace, fetchesUnderLock] using h

/-- Counterexample to claim C8.  The auto PTS is
frameCounter · (1000000 / fps) with integer division, expressed neither
in the configured codec timebase {1, fps} (frame 1 at 60 fps would need
pts 1, the code assigns 16666) nor, beyond a bounded frame count, within
one tick of the ideal microsecond value: at 60 fps and frame 25000 the
accumulated truncation error reaches exactly one tick
(1000000 µs·fps worth), so the strict within-one-tick bound fails. -/
theorem C8_auto_pts_mismatch :
    autoPts 1 60 ≠ 1 ∧
    25000 * 1000000 - autoPts 25000 60 * 60 = 1000000 ∧
    ¬ (25000 * 1000000 - autoPts 25000 60 * 60 < 1000000) ∧
    (pushFrame (-1) ptsEncState).queue = [(416650000 : Int)] := by
  refine ⟨by decide, by decide, by decide, ?_⟩
  decide

/-- Claim C8 amended: an auto-pts frame is stamped with
frameCounter · ⌊1000000/fps⌋ microseconds; the deviation from the ideal
n·1000000/fps is exactly n·(1000000 mod fps)/fps, so the PTS is exact
when fps divides 1000000 and stays within one tick only while
n·(1000000 mod fps) < 1000000. -/
theorem C8_auto_pts_drift :
    (∀ s : EncState, s.running = true → s.codecCtx = true →
       s.queue.length < s.maxQueueSize →
       (pushFrame (-1) s).queue =
         s.queue ++ [(autoPts s.frameCounter s.fpsNum : Int)]) ∧
    (∀ n fps : Nat, 0 < fps →
       autoPts n fps * fps + n * (1000000 % fps) = n * 1000000 ∧
       (fps ∣ 1000000 → autoPts n fps * fps = n * 1000000) ∧
       (n * (1000000 % fps) < 1000000 →
         n * 1000000 - autoPts n fps * fps < 1000000)) := by
  refine ⟨?_, ?_⟩
  · intro s h1 h2 hlen
    unfold pushFrame
    rw [if_neg (by simp [h1, h2]), if_neg (by omega)]
    simp
  · intro n fps hfps
    have e1 : autoPts n fps * fps + n * (1000000 % fps) = n * 1000000 := by
      unfold autoPts
      have hdm := Nat.div_add_mod 1000000 fps
      calc n * (1000000 / fps) * fps + n * (1000000 % fps)
          = n * (fps * (1000000 / fps) + 1000000 % fps) := by ring
        _ = n * 1000000 := by rw [hdm]
    refine ⟨e1, ?_, ?_⟩
    · intro hdvd
      have hmod : 1000000 % fps = 0 := Nat.dvd_iff_mod_eq_zero.mp hdvd
      rw [hmod] at e1
      simpa using e1
    · intro hlt
      generalize hA : autoPts n fps * fps = A at e1 ⊢
      generalize hB : n * (1000000 % fps) = B at e1 hlt
      generalize hC : n * 1000000 = C at e1 ⊢
      omega

/-- Witness for C8 at concrete inputs: the stamped frame at
ptsEncState, and the drift bound at n = 3, fps = 30. -/
theorem C8_auto_pts_drift_witness :
    (pushFrame (-1) ptsEncState).queue =
      ptsEncState.queue ++
        [(autoPts ptsEncState.frameCounter ptsEncState.fpsNum : Int)] ∧
    3 * 1000000 - autoPts 3 30 * 30 < 1000000 :=
  ⟨C8_auto_pts_drift.1 ptsEncState rfl rfl (by decide),
   (C8_auto_pts_drift.2 3 30 (by decide)).2.2 (by decide)⟩

/-- Claim C9.  Stop is idempotent for all three stages: a stop on an
already-stopped stage returns immediately, changing nothing and emitting
nothing, and in particular the second of two consecutive stop calls is
always a no-op. -/
theorem C9_stop_idempotent :
    (∀ e : EncState, e.running = false → encStop e = (e, [])) ∧
    (∀ t : TxState, t.streamState = StreamState.stopped →
       txStop t = (t, { trailerWritten := false, sentDuringStop := [],
                        events := [] })) ∧
    (∀ r : RenderLoopState, r.renderLoopRunning = false →
       stopRenderLoop r = (r, [])) ∧
    (∀ e : EncState, encStop (encStop e).1 = ((encStop e).1, [])) ∧
    (∀ t : TxState, txStop (txStop t).1 =
       ((txStop t).1, { trailerWritten := false, sentDuringStop := [],
                        events := [] })) ∧
    (∀ r : RenderLoopState,
       stopRenderLoop (stopRenderLoop r).1 = ((stopRenderLoop r).1, [])) := by
  refine ⟨?_, ?_, ?_, ?_, ?_, ?_⟩
  · intro e h
    unfold encStop
    rw [if_pos h]
  · intro t h
    unfold txStop
    rw [if_pos h]
  · intro r h
    unfold stopRenderLoop
    rw [if_pos h]
  · intro e
    by_cases h : e.running = false <;> simp [encStop, h]
  · intro t
    rcases t with ⟨st, r, hw, fc, io, q⟩
    cases st <;> cases fc <;> rfl
  · intro r
    by_cases h : r.renderLoopRunning = false <;> simp [stopRenderLoop, h]

/-- Witness for C9 at concrete already-stopped stage states. -/
theorem C9_stop_idempotent_witness :
    encStop (EncState.initial 60) = (EncState.initial 60, []) ∧
    txStop { streamState := StreamState.stopped, running := false,
             headerWritten := false, formatCtx := false, ioOpen := false,
             packetQueue := [] } =
      ({ streamState := StreamState.stopped, running := false,
         headerWritten := false, formatCtx := false, ioOpen := false,
         packetQueue := [] },
       { trailerWritten := false, sentDuringStop := [], events := [] }) ∧
    stopRenderLoop { renderLoopRunning := false, timerActive := false } =
      ({ renderLoopRunning := false, timerActive := false }, []) :=
  ⟨C9_stop_idempotent.1 (EncState.initial 60) rfl,
   C9_stop_idempotent.2.1 _ rfl,
   C9_stop_idempotent.2.2.1 _ rfl⟩

/-- Counterexample to claim C10.  setOpacity does clamp, but
setTransform stores the supplied transform verbatim, so the sequence
consisting of one setTransform with opacity 2 leaves a stored opacity
outside [0,1]: the invariant does not hold after arbitrary public
operations. -/
theorem C10_setTransform_escapes_clamp :
    ¬ ((applyOps defaultItem
        [ItemOp.opTransform { ItemTransform.default with opacity := 2 }]
       ).transform.opacity ≤ 1) := by
  decide

/-- Claim C10 amended: setOpacity always stores clamp(x,0,1) ∈ [0,1];
the stored opacity stays in [0,1] under any sequence of public
operations that avoids setTransform (which stores its argument
verbatim); and a setOpacity whose clamped input equals the stored value
changes nothing and emits no signal. -/
theorem C10_opacity_clamped :
    (∀ (x : ℚ) (s : SceneItemState),
       (setOpacity x s).1.transform.opacity = qBound 0 x 1 ∧
       0 ≤ qBound 0 x 1 ∧ qBound 0 x 1 ≤ 1) ∧
    (∀ (s : SceneItemState) (ops : List ItemOp),
       noSetTransform ops = true →
       0 ≤ s.transform.opacity → s.transform.opacity ≤ 1 →
       0 ≤ (applyOps s ops).transform.opacity ∧
         (applyOps s ops).transform.opacity ≤ 1) ∧
    (∀ (x : ℚ) (s : SceneItemState),
       qBound 0 x 1 = s.transform.opacity → setOpacity x s = (s, [])) := by
  refine ⟨?_, ?_, ?_⟩
  · intro x s
    exact ⟨setOpacity_opacity x s, qBound_nonneg x, qBound_le_one x⟩
  · intro s ops h1 h2 h3
    exact applyOps_opacity_bounds ops s h1 h2 h3
  · intro x s h
    unfold setOpacity
    rw [if_pos h.symm]

/-- Witness for C10 at concrete inputs: an out-of-range setOpacity on
the default item, and a no-op setOpacity with the stored value. -/
theorem C10_opacity_clamped_witness :
    ((setOpacity 5 defaultItem).1.transform.opacity = qBound 0 5 1 ∧
     0 ≤ qBound 0 (5 : ℚ) 1 ∧ qBound 0 (5 : ℚ) 1 ≤ 1) ∧
    (0 ≤ (applyOps defaultItem [ItemOp.opOpacity 3]).transform.opacity ∧
     (applyOps defaultItem [ItemOp.opOpacity 3]).transform.opacity ≤ 1) ∧
    setOpacity 1 defaultItem = (defaultItem, []) :=
  ⟨C10_opacity_clamped.1 5 defaultItem,
   C10_opacity_clamped.2.1 defaultItem [ItemOp.opOpacity 3] (by decide)
     (by decide) (by decide),
   C10_opacity_clamped.2.2 1 defaultItem (by decide)⟩

end WeaR
